import Mathlib

/-!
Verification of the GenAI IDP accelerator UI build/test glue code:
two Vite configuration files (`src/ui/vite.config.js` and a second copy
of the same configuration) and the Vitest setup script
(`setupTests.js`), shallowly embedded in Lean.

The configuration files are embedded as JSON-like value trees; the setup
script is embedded as a transformation on a global-binding environment.
-/

mutual
/-- JavaScript-style values as they occur in the configuration objects:
strings, booleans, numbers, `undefined`, arrays, objects (ordered field
lists), regular-expression literals, and opaque plugin objects (the
result of `react()`). -/
inductive JsVal where
  | str (s : String)
  | bool (b : Bool)
  | num (n : Nat)
  | undefined
  | arr (xs : JsArr)
  | obj (fs : JsObj)
  | regex (pattern : String)
  | plugin (provider : String)
  deriving DecidableEq

/-- An array of JavaScript values. -/
inductive JsArr where
  | nil
  | cons (v : JsVal) (rest : JsArr)
  deriving DecidableEq

/-- An object: an ordered list of key/value fields. -/
inductive JsObj where
  | nil
  | cons (key : String) (v : JsVal) (rest : JsObj)
  deriving DecidableEq
end

/-- Build a `JsVal.arr` from a Lean list. -/
def jarr : List JsVal → JsVal
  | xs => .arr (go xs)
where
  go : List JsVal → JsArr
    | [] => .nil
    | v :: rest => .cons v (go rest)

/-- Build a `JsVal.obj` from a Lean association list. -/
def jobj : List (String × JsVal) → JsVal
  | fs => .obj (go fs)
where
  go : List (String × JsVal) → JsObj
    | [] => .nil
    | (k, v) :: rest => .cons k v (go rest)

/-- Vite's `defineConfig` helper: it returns its argument unchanged (it
exists only to provide editor typing). -/
def defineConfig (config : JsVal) : JsVal := config

/-- The configuration object exported by `src/ui/vite.config.js`,
transcribed field by field in source order. -/
def viteConfigUi : JsVal := defineConfig (jobj [
  ("plugins", jarr [.plugin "react"]),
  ("esbuild", jobj [
    ("loader", .str "jsx"),
    ("include", .regex "src\\/.*\\.[jt]sx?$"),
    ("exclude", jarr [])]),
  ("optimizeDeps", jobj [
    ("include", jarr [.str "aws-amplify", .str "@aws-amplify/ui-react",
      .str "buffer"]),
    ("esbuildOptions", jobj [
      ("loader", jobj [(".js", .str "jsx")])])]),
  ("server", jobj [
    ("port", .num 3000),
    ("host", .bool true),
    ("open", .bool true)]),
  ("build", jobj [
    ("outDir", .str "build"),
    ("sourcemap", .bool true)]),
  ("define", jobj [
    ("global", .str "globalThis")]),
  ("resolve", jobj [
    ("alias", jobj [
      ("./runtimeConfig", .str "./runtimeConfig.browser"),
      ("buffer", .str "buffer")])]),
  ("test", jobj [
    ("globals", .bool true),
    ("environment", .str "jsdom"),
    ("setupFiles", .str "./src/setupTests.js"),
    ("css", .bool true),
    ("server", jobj [
      ("deps", jobj [
        ("external", jarr [.str "maplibre-gl"])])])])])

/-- The configuration object exported by the second copy of the Vite
configuration file, transcribed field by field in source order. -/
def viteConfigCopy : JsVal := defineConfig (jobj [
  ("plugins", jarr [.plugin "react"]),
  ("server", jobj [
    ("port", .num 3000),
    ("host", .bool true),
    ("open", .bool true)]),
  ("build", jobj [
    ("outDir", .str "build"),
    ("sourcemap", .bool true)]),
  ("define", jobj [
    ("global", .str "globalThis")]),
  ("resolve", jobj [
    ("alias", jobj [
      ("./runtimeConfig", .str "./runtimeConfig.browser"),
      ("buffer", .str "buffer")])]),
  ("optimizeDeps", jobj [
    ("include", jarr [.str "aws-amplify", .str "@aws-amplify/ui-react",
      .str "buffer"])]),
  ("test", jobj [
    ("globals", .bool true),
    ("environment", .str "jsdom"),
    ("setupFiles", .str "./src/setupTests.js"),
    ("css", .bool true),
    ("server", jobj [
      ("deps", jobj [
        ("external", jarr [.str "maplibre-gl"])])])])])

/-- Look up a field in an object by key (first match, as in JavaScript
objects whose keys are distinct). -/
def JsObj.lookup : JsObj → String → Option JsVal
  | .nil, _ => none
  | .cons k v rest, key => if k = key then some v else rest.lookup key

/-- Follow a path of field names down a value tree. -/
def getPath (v : JsVal) : List String → Option JsVal
  | [] => some v
  | k :: ks =>
    match v with
    | .obj fs =>
      match fs.lookup k with
      | some v' => getPath v' ks
      | none => none
    | _ => none

mutual
/-- All leaf paths of a value: for objects, recurse into each field and
prefix the key; any non-object value is a leaf at the empty path. -/
def JsVal.leaves : JsVal → List (List String × JsVal)
  | .obj fs => fs.leaves
  | v => [([], v)]

/-- Leaf paths of every field of an object, in field order. -/
def JsObj.leaves : JsObj → List (List String × JsVal)
  | .nil => []
  | .cons k v rest =>
      (v.leaves.map fun pv => (k :: pv.1, pv.2)) ++ rest.leaves
end

/-! ## The Vitest setup script (`setupTests.js`) -/

/-- The outcome of calling a JavaScript function: a normal return value
or a thrown error. -/
abbrev JsOutcome := Except String JsVal

/-- A JavaScript function value: the mock functions installed by the
setup script take one (ignored) argument and produce an outcome. -/
abbrev JsFn := JsVal → JsOutcome

/-- `vi.fn()` with no implementation: a mock that accepts any argument
and returns `undefined`. -/
def viFn : JsFn := fun _ => .ok .undefined

/-- `vi.fn(impl)` where `impl` ignores its arguments and returns a fixed
value. -/
def viFnReturning (v : JsVal) : JsFn := fun _ => .ok v

/-- `global.URL.createObjectURL = vi.fn(() => 'mocked-url')`: the mock
installed for object-URL creation. -/
def createObjectURLMock : JsFn := viFnReturning (.str "mocked-url")

/-- `global.URL.revokeObjectURL = vi.fn()`: the mock installed for
object-URL revocation. -/
def revokeObjectURLMock : JsFn := viFn

/-- The stand-in object produced by the mocked observer constructors:
`observe`, `unobserve` and `disconnect` are each a fresh `vi.fn()`. -/
structure ObserverInstance where
  observe : JsFn
  unobserve : JsFn
  disconnect : JsFn

/-- `global.ResizeObserver = vi.fn().mockImplementation(() => ({ observe:
vi.fn(), unobserve: vi.fn(), disconnect: vi.fn() }))`: constructing a
mocked `ResizeObserver` returns a stand-in with three no-op methods. -/
def resizeObserverMock : JsVal → Except String ObserverInstance :=
  fun _ => .ok { observe := viFn, unobserve := viFn, disconnect := viFn }

/-- `global.IntersectionObserver = vi.fn().mockImplementation(...)`: the
identically-shaped mock for `IntersectionObserver`. -/
def intersectionObserverMock : JsVal → Except String ObserverInstance :=
  fun _ => .ok { observe := viFn, unobserve := viFn, disconnect := viFn }

/-- A value bound to a global name: a plain function, an observer
constructor, or any other JavaScript value (the pre-existing bindings of
the jsdom environment). -/
inductive GlobalValue where
  | fn (f : JsFn)
  | ctor (c : JsVal → Except String ObserverInstance)
  | plain (v : JsVal)

/-- The global environment: each (dotted) global name is bound to a
value. Assignments like `global.URL.createObjectURL = ...` are modelled
as updates at the dotted name. -/
abbrev GlobalState := String → GlobalValue

/-- Assignment to a global binding. -/
def setGlobal (g : GlobalState) (name : String) (v : GlobalValue) :
    GlobalState :=
  fun n => if n = name then v else g n

/-- Running the setup script's four assignment statements, in source
order, over a global environment. -/
def setupTests (g : GlobalState) : GlobalState :=
  let g1 := setGlobal g "URL.createObjectURL" (.fn createObjectURLMock)
  let g2 := setGlobal g1 "URL.revokeObjectURL" (.fn revokeObjectURLMock)
  let g3 := setGlobal g2 "ResizeObserver" (.ctor resizeObserverMock)
  setGlobal g3 "IntersectionObserver" (.ctor intersectionObserverMock)

/-- The four global names the setup script assigns to. -/
def mockedNames : List String :=
  ["URL.createObjectURL", "URL.revokeObjectURL",
   "ResizeObserver", "IntersectionObserver"]

/-- Calling the function bound to a global name with one argument; a
non-function binding throws, as in JavaScript. -/
def callGlobal (g : GlobalState) (name : String) (arg : JsVal) :
    JsOutcome :=
  match g name with
  | .fn f => f arg
  | _ => .error "TypeError: not a function"

/-- `new`-constructing the value bound to a global name with one
argument; a non-constructor binding throws. -/
def constructGlobal (g : GlobalState) (name : String) (arg : JsVal) :
    Except String ObserverInstance :=
  match g name with
  | .ctor c => c arg
  | _ => .error "TypeError: not a constructor"

/-- Modelled from the spec: the external test runner (Vitest, configured
with `setupFiles: './src/setupTests.js'`) executes the setup file before
any test executes, so every test observes the post-setup global
environment. A test is abstracted as an observation of the globals. -/
def runSuite (g : GlobalState) (tests : List (GlobalState → Bool)) :
    List Bool :=
  tests.map fun t => t (setupTests g)

/-! ## Statement-level model of the three scripts -/

/-- A top-level statement of one of the three source files: a module
inclusion (whose side effects are external to the embedded state), an
assignment to a global binding, or the `export default` of a
configuration value. -/
inductive Stmt where
  | importStmt (module : String)
  | assign (target : String) (v : GlobalValue)
  | exportDefault (v : JsVal)

/-- The setup script as its list of top-level statements, in source
order. -/
def setupScriptStmts : List Stmt :=
  [.importStmt "@testing-library/jest-dom",
   .importStmt "vitest",
   .assign "URL.createObjectURL" (.fn createObjectURLMock),
   .assign "URL.revokeObjectURL" (.fn revokeObjectURLMock),
   .assign "ResizeObserver" (.ctor resizeObserverMock),
   .assign "IntersectionObserver" (.ctor intersectionObserverMock)]

/-- `src/ui/vite.config.js` as its list of top-level statements. -/
def viteConfigUiStmts : List Stmt :=
  [.importStmt "vite",
   .importStmt "@vitejs/plugin-react",
   .exportDefault viteConfigUi]

/-- The second configuration file as its list of top-level statements. -/
def viteConfigCopyStmts : List Stmt :=
  [.importStmt "vite",
   .importStmt "@vitejs/plugin-react",
   .exportDefault viteConfigCopy]

/-- Execute one statement over the global environment (imports and
exports do not change the embedded globals). -/
def execStmt (g : GlobalState) : Stmt → GlobalState
  | .importStmt _ => g
  | .assign n v => setGlobal g n v
  | .exportDefault _ => g

/-- Run a script sequentially, returning the final environment together
with the trace of statements actually executed, in execution order. -/
def runScript (g : GlobalState) : List Stmt → GlobalState × List Stmt
  | [] => (g, [])
  | st :: rest =>
    let out := runScript (execStmt g st) rest
    (out.1, st :: out.2)

/-- A sample initial global environment (used to instantiate universally
quantified theorems at a concrete point). -/
def gSample : GlobalState := fun _ => .plain .undefined

/-! ## Claims -/

/-- C1: after the setup script has executed, the global bindings
`URL.createObjectURL`, `URL.revokeObjectURL`, `ResizeObserver` and
`IntersectionObserver` are each bound to the mock the script installs,
and — since the test runner executes the setup file first — every test
in a suite observes the post-setup environment, so the installation
happens before any test executes. -/
theorem setup_installs_mocks_before_tests (g : GlobalState) :
    setupTests g "URL.createObjectURL" = .fn createObjectURLMock ∧
    setupTests g "URL.revokeObjectURL" = .fn revokeObjectURLMock ∧
    setupTests g "ResizeObserver" = .ctor resizeObserverMock ∧
    setupTests g "IntersectionObserver" = .ctor intersectionObserverMock ∧
    ∀ tests : List (GlobalState → Bool),
      runSuite g tests = tests.map fun t => t (setupTests g) :=
  ⟨rfl, rfl, rfl, rfl, fun _ => rfl⟩

/-- C2: both exported configuration records contain exactly the literal
values of the spec's field list, unchanged. -/
theorem config_literal_values :
    getPath viteConfigUi ["server", "port"] = some (.num 3000) ∧
    getPath viteConfigUi ["server", "host"] = some (.bool true) ∧
    getPath viteConfigUi ["server", "open"] = some (.bool true) ∧
    getPath viteConfigUi ["build", "outDir"] = some (.str "build") ∧
    getPath viteConfigUi ["build", "sourcemap"] = some (.bool true) ∧
    getPath viteConfigUi ["define", "global"] = some (.str "globalThis") ∧
    getPath viteConfigUi ["resolve", "alias", "./runtimeConfig"] =
      some (.str "./runtimeConfig.browser") ∧
    getPath viteConfigUi ["resolve", "alias", "buffer"] =
      some (.str "buffer") ∧
    getPath viteConfigUi ["optimizeDeps", "include"] =
      some (jarr [.str "aws-amplify", .str "@aws-amplify/ui-react",
        .str "buffer"]) ∧
    getPath viteConfigUi ["test", "globals"] = some (.bool true) ∧
    getPath viteConfigUi ["test", "environment"] = some (.str "jsdom") ∧
    getPath viteConfigUi ["test", "setupFiles"] =
      some (.str "./src/setupTests.js") ∧
    getPath viteConfigUi ["test", "css"] = some (.bool true) ∧
    getPath viteConfigUi ["test", "server", "deps", "external"] =
      some (jarr [.str "maplibre-gl"]) ∧
    getPath viteConfigCopy ["server", "port"] = some (.num 3000) ∧
    getPath viteConfigCopy ["server", "host"] = some (.bool true) ∧
    getPath viteConfigCopy ["server", "open"] = some (.bool true) ∧
    getPath viteConfigCopy ["build", "outDir"] = some (.str "build") ∧
    getPath viteConfigCopy ["build", "sourcemap"] = some (.bool true) ∧
    getPath viteConfigCopy ["define", "global"] = some (.str "globalThis") ∧
    getPath viteConfigCopy ["resolve", "alias", "./runtimeConfig"] =
      some (.str "./runtimeConfig.browser") ∧
    getPath viteConfigCopy ["resolve", "alias", "buffer"] =
      some (.str "buffer") ∧
    getPath viteConfigCopy ["optimizeDeps", "include"] =
      some (jarr [.str "aws-amplify", .str "@aws-amplify/ui-react",
        .str "buffer"]) ∧
    getPath viteConfigCopy ["test", "globals"] = some (.bool true) ∧
    getPath viteConfigCopy ["test", "environment"] = some (.str "jsdom") ∧
    getPath viteConfigCopy ["test", "setupFiles"] =
      some (.str "./src/setupTests.js") ∧
    getPath viteConfigCopy ["test", "css"] = some (.bool true) ∧
    getPath viteConfigCopy ["test", "server", "deps", "external"] =
      some (jarr [.str "maplibre-gl"]) := by decide

/-- C3 (counterexample): the two exported configuration objects are not
equal; at the field path `esbuild.loader`, `src/ui/vite.config.js` has
the value `'jsx'` while the second copy has no value at all. -/
theorem configs_not_equal :
    viteConfigUi ≠ viteConfigCopy ∧
    getPath viteConfigUi ["esbuild", "loader"] = some (.str "jsx") ∧
    getPath viteConfigCopy ["esbuild", "loader"] = none := by decide

/-- C3 (amended): the two configuration records agree on every leaf
field path except for the esbuild settings present only in
`src/ui/vite.config.js`: every leaf path/value of the copy occurs in
`vite.config.js`, and every leaf path/value of `vite.config.js` either
occurs in the copy or lies under the top-level `esbuild` key or under
`optimizeDeps.esbuildOptions`. -/
theorem configs_agree_except_esbuild :
    (∀ pv ∈ JsVal.leaves viteConfigCopy, pv ∈ JsVal.leaves viteConfigUi) ∧
    (∀ pv ∈ JsVal.leaves viteConfigUi,
      pv ∈ JsVal.leaves viteConfigCopy ∨ pv.1.head? = some "esbuild" ∨
      pv.1.take 2 = ["optimizeDeps", "esbuildOptions"]) := by decide

/-- Witness for `configs_agree_except_esbuild` at two concrete leaves:
the shared `server.port` leaf and the `esbuild.loader` leaf present only
in `vite.config.js`. -/
theorem configs_agree_except_esbuild_witness :
    ((["server", "port"], JsVal.num 3000) ∈ JsVal.leaves viteConfigUi) ∧
    ((["esbuild", "loader"], JsVal.str "jsx") ∈
        JsVal.leaves viteConfigCopy ∨
      (["esbuild", "loader"] : List String).head? = some "esbuild" ∨
      (["esbuild", "loader"] : List String).take 2 =
        ["optimizeDeps", "esbuildOptions"]) :=
  ⟨configs_agree_except_esbuild.1 (["server", "port"], JsVal.num 3000)
      (by decide),
   configs_agree_except_esbuild.2 (["esbuild", "loader"], JsVal.str "jsx")
      (by decide)⟩

/-- C4: after setup, the mocked URL functions return their fixed
stand-in values on every invocation: `URL.createObjectURL` returns the
string `'mocked-url'` and `URL.revokeObjectURL` returns `undefined`,
whatever the argument. -/
theorem mocked_url_functions_fixed_values (g : GlobalState) (a : JsVal) :
    callGlobal (setupTests g) "URL.createObjectURL" a =
      .ok (.str "mocked-url") ∧
    callGlobal (setupTests g) "URL.revokeObjectURL" a = .ok .undefined :=
  ⟨rfl, rfl⟩

/-- C5: for every argument, constructing the mocked `ResizeObserver` or
`IntersectionObserver` returns a stand-in object whose `observe`,
`unobserve` and `disconnect` methods each return `undefined` on every
argument (the methods are pure in the embedding, so they change no
state). -/
theorem observer_constructors_return_noop_standins
    (g : GlobalState) (a x : JsVal) :
    (∃ r : ObserverInstance,
      constructGlobal (setupTests g) "ResizeObserver" a = .ok r ∧
      r.observe x = .ok .undefined ∧ r.unobserve x = .ok .undefined ∧
      r.disconnect x = .ok .undefined) ∧
    (∃ i : ObserverInstance,
      constructGlobal (setupTests g) "IntersectionObserver" a = .ok i ∧
      i.observe x = .ok .undefined ∧ i.unobserve x = .ok .undefined ∧
      i.disconnect x = .ok .undefined) :=
  ⟨⟨_, rfl, rfl, rfl, rfl⟩, ⟨_, rfl, rfl, rfl, rfl⟩⟩

/-- C6: the setup script overwrites exactly the four stated global
bindings — it assigns the mocks to them regardless of their previous
values — and every global binding outside that set is unchanged. -/
theorem setup_overwrites_exactly_mocked_names (g : GlobalState) :
    (setupTests g "URL.createObjectURL" = .fn createObjectURLMock ∧
     setupTests g "URL.revokeObjectURL" = .fn revokeObjectURLMock ∧
     setupTests g "ResizeObserver" = .ctor resizeObserverMock ∧
     setupTests g "IntersectionObserver" =
       .ctor intersectionObserverMock) ∧
    ∀ n, n ∉ mockedNames → setupTests g n = g n := by
  refine ⟨⟨rfl, rfl, rfl, rfl⟩, fun n hn => ?_⟩
  simp only [mockedNames, List.mem_cons, List.not_mem_nil, or_false,
    not_or] at hn
  obtain ⟨h1, h2, h3, h4⟩ := hn
  simp [setupTests, setGlobal, h1, h2, h3, h4]

/-- Witness for `setup_overwrites_exactly_mocked_names`: the binding
named `fetch` is outside the mocked set and is unchanged by setup. -/
theorem setup_overwrites_exactly_mocked_names_witness :
    "fetch" ∉ mockedNames ∧
    setupTests gSample "fetch" = gSample "fetch" :=
  ⟨by decide,
   (setup_overwrites_exactly_mocked_names gSample).2 "fetch" (by decide)⟩

/-- C7: none of the installed mocks can fail: for every input, the
mocked `createObjectURL`, `revokeObjectURL`, the two mock constructors,
and the `observe`/`unobserve`/`disconnect` methods of the constructed
stand-ins all return normally — the thrown/error branch of the outcome
type is unreachable. -/
theorem mocks_never_throw (x a : JsVal) :
    (∃ v, createObjectURLMock x = .ok v) ∧
    (∃ v, revokeObjectURLMock x = .ok v) ∧
    (∃ r, resizeObserverMock a = .ok r ∧
      (∃ v, r.observe x = .ok v) ∧ (∃ v, r.unobserve x = .ok v) ∧
      (∃ v, r.disconnect x = .ok v)) ∧
    (∃ i, intersectionObserverMock a = .ok i ∧
      (∃ v, i.observe x = .ok v) ∧ (∃ v, i.unobserve x = .ok v) ∧
      (∃ v, i.disconnect x = .ok v)) :=
  ⟨⟨_, rfl⟩, ⟨_, rfl⟩,
   ⟨_, rfl, ⟨_, rfl⟩, ⟨_, rfl⟩, ⟨_, rfl⟩⟩,
   ⟨_, rfl, ⟨_, rfl⟩, ⟨_, rfl⟩, ⟨_, rfl⟩⟩⟩

/-- C8: running each of the three scripts executes exactly its top-level
statements, each once, in source order (the execution trace equals the
source statement list), and sequential execution of the setup script
yields exactly the environment `setupTests` describes, while the
configuration files leave the environment unchanged. -/
theorem scripts_execute_statements_once_in_order (g : GlobalState) :
    (runScript g setupScriptStmts).2 = setupScriptStmts ∧
    (runScript g setupScriptStmts).1 = setupTests g ∧
    (runScript g viteConfigUiStmts).2 = viteConfigUiStmts ∧
    (runScript g viteConfigUiStmts).1 = g ∧
    (runScript g viteConfigCopyStmts).2 = viteConfigCopyStmts ∧
    (runScript g viteConfigCopyStmts).1 = g :=
  ⟨rfl, rfl, rfl, rfl, rfl, rfl⟩

/-- C9: the mocked `URL.createObjectURL` is input-independent: any two
invocations return the same value, namely `'mocked-url'`, so the result
reveals nothing about the argument. -/
theorem createObjectURL_input_independent
    (g : GlobalState) (x y : JsVal) :
    callGlobal (setupTests g) "URL.createObjectURL" x =
      callGlobal (setupTests g) "URL.createObjectURL" y ∧
    callGlobal (setupTests g) "URL.createObjectURL" x =
      .ok (.str "mocked-url") :=
  ⟨rfl, rfl⟩

/-- C10: running the setup script's installation steps twice is
observationally idempotent: after a second execution every global
binding — in particular each of the four mocked ones — is the same as
after a single execution, so all observable behavior coincides. -/
theorem setup_idempotent (g : GlobalState) (n : String) :
    setupTests (setupTests g) n = setupTests g n := by
  simp only [setupTests, setGlobal]
  split_ifs <;> rfl
